import Mathlib

/-!
Shallow embedding of the `HotMediaDaily` plugin (src/plugins/__init__.py).

The plugin is glue code between a host scheduler, the Douban HTTP API and a
notification sink.  External effects (the HTTP request, the JSON parse, the
scheduler registration/removal, the notification send) are modelled as
explicit outcome parameters; every function of the plugin itself is embedded
as a total Lean function over those outcomes.  Python exceptions are embedded
as `Except String`: a function that can raise to its caller returns
`Except String α`, and a `try/except` block in the source becomes a `match`
on that `Except`.
-/

namespace HotMediaDaily

/-- A dynamically typed value as it can come out of the parsed JSON or the
configuration dictionary: Python `None`, a string, an integer, or a
non-integral JSON number carried by its decimal literal (Python's f-string
interpolation of such a number reproduces the literal). -/
inductive PyVal where
  | none : PyVal
  | str (s : String) : PyVal
  | int (n : Int) : PyVal
  | num (lit : String) : PyVal
deriving DecidableEq, Repr

/-- Python truthiness for the values of `PyVal`: `None` is falsy, a string is
truthy iff non-empty, an integer is truthy iff non-zero, and a number literal
is truthy iff it denotes a non-zero value (some digit other than 0). -/
def pyTruthy : PyVal → Bool
  | PyVal.none => false
  | PyVal.str s => !s.isEmpty
  | PyVal.int n => n != 0
  | PyVal.num lit => lit.data.any (fun c => c.isDigit && c != '0')

/-- Python `str()` of a `PyVal`, as used by f-string interpolation. -/
def pyStr : PyVal → String
  | PyVal.none => "None"
  | PyVal.str s => s
  | PyVal.int n => toString n
  | PyVal.num lit => lit

/-- Whitespace characters removed by Python's `str.strip()` (the ASCII ones,
which are the only ones arising in the data handled by this plugin). -/
def isPySpace (c : Char) : Bool :=
  c = ' ' || c = '\t' || c = '\n' || c = '\r' || c = '\x0b' || c = '\x0c'

/-- Python `str.strip()`: remove leading and trailing whitespace. -/
def pyStrip (s : String) : String :=
  String.mk (((s.data.dropWhile isPySpace).reverse.dropWhile isPySpace).reverse)

/-- `HotMediaDaily.parse_year` (src/plugins/__init__.py:192-198): a falsy
input yields `""`; on a truthy string `year_str.replace('年', '').strip()`
removes every occurrence of `'年'` and strips whitespace; on a truthy
non-string the `AttributeError` is swallowed by the bare `except` and the
result is `""`. -/
def parse_year (year_str : PyVal) : String :=
  if pyTruthy year_str = false then ""
  else
    match year_str with
    | PyVal.str s => pyStrip (String.mk (s.data.filter (fun c => c != '年')))
    | _ => ""

/-- Formalisation of the words of the spec claim about the year field: "the
raw value with any 年 suffix removed and surrounding whitespace stripped"
(removal of a trailing run of `'年'` only, then strip).  Declared only to be
compared with `parse_year`, which embeds the source. -/
def spec_parse_year (s : String) : String :=
  pyStrip (String.mk ((s.data.reverse.dropWhile (fun c => c = '年')).reverse))

/-- A raw item object of the parsed JSON array `subject_collection_items`,
with the fields read by `get_douban_hot`.  `title` is `Option` because its
absence triggers the default `''` of `item.get('title', '')`; for the other
three fields an absent key and a JSON `null` both read back as Python `None`,
so they are plain `PyVal` with `PyVal.none` for absence. -/
structure RawItem where
  title : Option PyVal
  year : PyVal
  rating_value : PyVal
  id : PyVal
deriving DecidableEq, Repr

/-- The item dictionary built by `get_douban_hot`
(src/plugins/__init__.py:180-186). -/
structure MediaItem where
  title : PyVal
  year : String
  rating : PyVal
  douban_id : PyVal
  media_type : String
deriving DecidableEq, Repr

/-- The per-item dictionary construction inside the loop of `get_douban_hot`:
`title` defaults to `''`, `year` goes through `parse_year`, `rating` is the
nested `rating.value` (or `None`), `douban_id` is `id`. -/
def mk_media_item (media_type : String) (item : RawItem) : MediaItem :=
  ⟨item.title.getD (PyVal.str ""), parse_year item.year, item.rating_value,
    item.id, media_type⟩

/-- The decoded JSON body of a successful Douban response, as read by
`data.get('subject_collection_items', [])`: the array field may be absent. -/
structure DoubanResponse where
  subject_collection_items : Option (List RawItem)
deriving DecidableEq, Repr

/-- Outcome of the HTTP request plus JSON decode performed inside the `try`
of `get_douban_hot`: `fail` covers every exception raised there (network
error, timeout, malformed JSON, a wrongly shaped item object), `ok` a decoded
body. -/
inductive FetchOutcome where
  | fail : FetchOutcome
  | ok (resp : DoubanResponse) : FetchOutcome
deriving DecidableEq, Repr

/-- `HotMediaDaily.get_douban_hot` (src/plugins/__init__.py:148-190).  The
first component is the returned list, the second records whether an HTTP
request was issued.  An unsupported `media_type` returns `[]` before any
request; any exception inside the `try` is caught and yields `[]`; otherwise
the first `count` raw items are mapped to `MediaItem`s. -/
def get_douban_hot (media_type : String) (count : Nat) (outcome : FetchOutcome) :
    List MediaItem × Bool :=
  if media_type = "movie" || media_type = "tv" then
    match outcome with
    | FetchOutcome.fail => ⟨[], true⟩
    | FetchOutcome.ok resp =>
        ⟨((resp.subject_collection_items.getD []).take count).map
          (mk_media_item media_type), true⟩
  else ⟨[], false⟩

/-- The line built for one item by the loop of `send_notification`
(src/plugins/__init__.py:129-139), including the two trailing newlines:
`f"{i}. [{media_type}] {title} ({year})"`, then `" ⭐{rating}"` when the
rating is truthy, then the Douban link line when `douban_id` is truthy. -/
def item_line (i : Nat) (item : MediaItem) : String :=
  let label := if item.media_type = "movie" then "电影" else "剧集"
  let base := toString i ++ ". [" ++ label ++ "] " ++ pyStr item.title
    ++ " (" ++ item.year ++ ")"
  let withRating :=
    if pyTruthy item.rating then base ++ " ⭐" ++ pyStr item.rating else base
  let withLink :=
    if pyTruthy item.douban_id then
      withRating ++ "\n豆瓣: https://movie.douban.com/subject/"
        ++ pyStr item.douban_id ++ "/"
    else withRating
  withLink ++ "\n\n"

/-- The full message text assembled by `send_notification`
(src/plugins/__init__.py:121-139): dated header, the two
`sum(1 for item ...)` counts, then the enumerated item lines starting at 1.
`date_str` stands for `datetime.now().strftime('%Y-%m-%d')`. -/
def build_message (date_str : String) (items : List MediaItem) : String :=
  let movie_count := (items.filter (fun it => it.media_type = "movie")).length
  let tv_count := (items.filter (fun it => it.media_type = "tv")).length
  "🎬 今日热播推荐 (" ++ date_str ++ ")\n\n"
    ++ "🔥 热门电影: " ++ toString movie_count ++ "部\n"
    ++ "📺 热门剧集: " ++ toString tv_count ++ "部\n\n"
    ++ String.join ((items.enumFrom 1).map (fun p => item_line p.1 p.2))

/-- Outcome of the external `self.mb.notify.send_message` call: it either
returns or raises. -/
inductive NotifyOutcome where
  | ok : NotifyOutcome
  | fail : NotifyOutcome
deriving DecidableEq, Repr

/-- `HotMediaDaily.send_notification` (src/plugins/__init__.py:119-146):
builds the message text and performs the send, which may raise; on success
the result carries the text that was sent. -/
def send_notification (date_str : String) (items : List MediaItem)
    (n : NotifyOutcome) : Except String String :=
  let text := build_message date_str items
  match n with
  | NotifyOutcome.ok => Except.ok text
  | NotifyOutcome.fail => Except.error "send_message failed"

/-- The plugin configuration dictionary as read through `.get` with defaults
(`push_time` default `"10:00"`, `max_items` default `5`). -/
structure Config where
  push_time : Option String
  max_items : Option Nat
deriving DecidableEq, Repr

/-- Observable outcome of one run of the push routine: early return with the
"no items" warning, a successful send of the given items and text, or an
exception caught by the outermost `except` and only logged. -/
inductive PushOutcome where
  | noItems : PushOutcome
  | sent (items : List MediaItem) (text : String) : PushOutcome
  | errorLogged (msg : String) : PushOutcome
deriving DecidableEq, Repr

/-- The body of the `try` of `HotMediaDaily.push_hot_media`
(src/plugins/__init__.py:97-115): fetch both categories with the configured
limit, concatenate movies then tvs, return early on an empty list, otherwise
send; an exception of the send propagates out of the body. -/
def push_hot_media_try (cfg : Config) (date_str : String)
    (movieOut tvOut : FetchOutcome) (n : NotifyOutcome) :
    Except String PushOutcome :=
  let max_items := cfg.max_items.getD 5
  let movies := (get_douban_hot "movie" max_items movieOut).1
  let tvs := (get_douban_hot "tv" max_items tvOut).1
  let all_items := movies ++ tvs
  if all_items.isEmpty then Except.ok PushOutcome.noItems
  else
    match send_notification date_str all_items n with
    | Except.ok text => Except.ok (PushOutcome.sent all_items text)
    | Except.error e => Except.error e

/-- `HotMediaDaily.push_hot_media` (src/plugins/__init__.py:95-117) as its
caller (the scheduler) sees it: the whole body runs inside `try/except`, so
any exception is converted into a logged error. -/
def push_hot_media (cfg : Config) (date_str : String)
    (movieOut tvOut : FetchOutcome) (n : NotifyOutcome) :
    Except String PushOutcome :=
  match push_hot_media_try cfg date_str movieOut tvOut n with
  | Except.ok o => Except.ok o
  | Except.error e => Except.ok (PushOutcome.errorLogged e)

/-- The items handed to `send_notification` on a completed send, if any. -/
def sent_items : Except String PushOutcome → Option (List MediaItem)
  | Except.ok (PushOutcome.sent items _) => some items
  | _ => Option.none

/-- Validity of the digit part accepted by Python's `int()`: digits possibly
separated by single underscores (no leading, trailing or doubled underscore,
checked together with the head-is-digit requirement at the call site). -/
def pyDigitsOk : List Char → Bool
  | [] => true
  | '_' :: c :: rest => c.isDigit && pyDigitsOk (c :: rest)
  | c :: rest => c.isDigit && pyDigitsOk rest

/-- Python's `int(s)` on a string: strip whitespace, optional sign, then a
non-empty digit sequence (single underscores between digits allowed);
`Option.none` models the `ValueError`. -/
def pyIntOfString (s : String) : Option Int :=
  let t := ((s.data.dropWhile isPySpace).reverse.dropWhile isPySpace).reverse
  let signAndDigits : Bool × List Char :=
    match t with
    | '-' :: rest => ⟨true, rest⟩
    | '+' :: rest => ⟨false, rest⟩
    | _ => ⟨false, t⟩
  match signAndDigits.2 with
  | [] => Option.none
  | c :: rest =>
      if c.isDigit && pyDigitsOk (c :: rest) then
        let n : Nat := ((c :: rest).filter (fun d => d != '_')).foldl
          (fun acc d => 10 * acc + (d.toNat - 48)) 0
        some (if signAndDigits.1 then -(n : Int) else (n : Int))
      else Option.none

/-- Helper for `pySplitChar`: split the remaining characters at the
separator, `acc` holding the (reversed) characters of the current field. -/
def pySplitCharAux (sep : Char) : List Char → List Char → List String
  | [], acc => [String.mk acc.reverse]
  | c :: rest, acc =>
      if c = sep then String.mk acc.reverse :: pySplitCharAux sep rest []
      else pySplitCharAux sep rest (c :: acc)

/-- Python's `s.split(sep)` for a one-character separator: like Python and
unlike some split functions, it keeps empty fields, and on the empty string
it returns `[""]`. -/
def pySplitChar (sep : Char) (s : String) : List String :=
  pySplitCharAux sep s.data []

/-- The parse `hour, minute = map(int, push_time.split(':'))` of
`HotMediaDaily.load` (src/plugins/__init__.py:48-51): `int` is mapped over
the colon-separated parts and the unpacking succeeds only for exactly two
successfully parsed parts; any exception lands in the bare `except` giving
`(10, 0)`. -/
def parse_push_time (push_time : String) : Int × Int :=
  match (pySplitChar ':' push_time).map pyIntOfString with
  | [some h, some m] => ⟨h, m⟩
  | _ => ⟨10, 0⟩

/-- Formalisation of the words of the spec claim about `push_time`: the
string parsed as "HH:MM", two colon-separated integers.  Declared only to be
compared with `parse_push_time`, which embeds the source. -/
def two_colon_ints (s : String) : Option (Int × Int) :=
  match pySplitChar ':' s with
  | [a, b] =>
      match pyIntOfString a, pyIntOfString b with
      | some h, some m => some ⟨h, m⟩
      | _, _ => Option.none
  | _ => Option.none

/-- The `ScheduleJob` record handed to the scheduler by `load`
(src/plugins/__init__.py:54-60). -/
structure ScheduleJob where
  job_id : String
  trigger : String
  hour : Int
  minute : Int
deriving DecidableEq, Repr

/-- The mutable plugin instance state touched by the lifecycle hooks: the
`self.schedule_job` attribute. -/
structure PluginState where
  schedule_job : Option ScheduleJob
deriving DecidableEq, Repr

/-- Outcome of the external `self.mb.schedule.add_job` call. -/
inductive AddJobOutcome where
  | ok : AddJobOutcome
  | fail : AddJobOutcome
deriving DecidableEq, Repr

/-- Result of `load`: the updated instance state and whether the
`except` around `add_job` fired (the error being only logged). -/
structure LoadResult where
  state : PluginState
  add_error_logged : Bool
deriving DecidableEq, Repr

/-- `HotMediaDaily.load` (src/plugins/__init__.py:43-68): parse `push_time`
(any failure giving 10:00), build the `ScheduleJob` and assign it to
`self.schedule_job` before `add_job` is attempted; a failing `add_job` is
caught and only logged. -/
def load (cfg : Config) (addOut : AddJobOutcome) (_st : PluginState) :
    LoadResult :=
  let push_time := cfg.push_time.getD "10:00"
  let hm := parse_push_time push_time
  let job : ScheduleJob := ⟨"HotMediaDaily_push_job", "cron", hm.1, hm.2⟩
  let st1 : PluginState := ⟨some job⟩
  match addOut with
  | AddJobOutcome.ok => ⟨st1, false⟩
  | AddJobOutcome.fail => ⟨st1, true⟩

/-- Outcome of the external `self.mb.schedule.remove_job` call; it raises
(for instance a job-lookup error when the job was already removed or never
registered) or returns. -/
inductive RemoveJobOutcome where
  | ok : RemoveJobOutcome
  | fail : RemoveJobOutcome
deriving DecidableEq, Repr

/-- The `remove_job` call as an exception-throwing action. -/
def remove_job_call : RemoveJobOutcome → Except String Unit
  | RemoveJobOutcome.ok => Except.ok ()
  | RemoveJobOutcome.fail => Except.error "JobLookupError"

/-- Result of `unload`: the job id passed to `remove_job` (none when
`self.schedule_job` was unset and no removal was attempted) and whether the
`except` around `remove_job` fired. -/
structure UnloadResult where
  remove_attempted_id : Option String
  remove_error_logged : Bool
deriving DecidableEq, Repr

/-- `HotMediaDaily.unload` (src/plugins/__init__.py:70-80) as its caller sees
it: when `self.schedule_job` is set, `remove_job` is called inside
`try/except`, so its exception is caught and only logged; note that
`self.schedule_job` is never reset, so the state is unchanged. -/
def unload (st : PluginState) (rOut : RemoveJobOutcome) :
    Except String UnloadResult :=
  match st.schedule_job with
  | Option.none => Except.ok ⟨Option.none, false⟩
  | some job =>
      match remove_job_call rOut with
      | Except.ok _ => Except.ok ⟨some job.job_id, false⟩
      | Except.error _ => Except.ok ⟨some job.job_id, true⟩

/-- Formalisation of the words of the spec claim about the message: one line
per item, the sequential number, the localized category label, the title, the
year, the star-prefixed rating when present, the link line when an identifier
is present.  Declared only to be compared with `item_line`, which embeds the
source. -/
def spec_item_line (i : Nat) (item : MediaItem) : String :=
  toString i ++ ". ["
    ++ (if item.media_type = "movie" then "电影" else "剧集") ++ "] "
    ++ pyStr item.title ++ " (" ++ item.year ++ ")"
    ++ (if pyTruthy item.rating then " ⭐" ++ pyStr item.rating else "")
    ++ (if pyTruthy item.douban_id then
          "\n豆瓣: https://movie.douban.com/subject/"
            ++ pyStr item.douban_id ++ "/"
        else "")
    ++ "\n\n"

/-- Formalisation of the words of the spec claim about the message as a
whole: dated header, per-category counts, then the item lines numbered
sequentially from 1.  Declared only to be compared with `build_message`,
which embeds the source. -/
def spec_message (date_str : String) (items : List MediaItem) : String :=
  "🎬 今日热播推荐 (" ++ date_str ++ ")\n\n"
    ++ "🔥 热门电影: "
    ++ toString (items.countP (fun it => it.media_type = "movie")) ++ "部\n"
    ++ "📺 热门剧集: "
    ++ toString (items.countP (fun it => it.media_type = "tv")) ++ "部\n\n"
    ++ String.join
      (List.zipWith spec_item_line (List.range' 1 items.length) items)

/-- Sample raw item used by the concrete witnesses. -/
def sample_raw_item : RawItem :=
  ⟨some (PyVal.str "沙丘2"), PyVal.str "2024年", PyVal.num "8.5",
    PyVal.str "35608157"⟩

/-- Sample one-item response used by the concrete witnesses. -/
def sample_resp : DoubanResponse := ⟨some [sample_raw_item]⟩

/-- Sample four-item response used by the concrete witnesses; with
`max_items = 3` a fetch from it returns exactly three items. -/
def sample_resp4 : DoubanResponse :=
  ⟨some
    [⟨some (PyVal.str "哪吒2"), PyVal.str "2025年", PyVal.num "8.5",
        PyVal.str "34780991"⟩,
      ⟨some (PyVal.str "流浪地球3"), PyVal.str "2027", PyVal.none, PyVal.none⟩,
      ⟨Option.none, PyVal.none, PyVal.num "0.0", PyVal.str "1292052"⟩,
      ⟨some (PyVal.str "额外条目"), PyVal.str " 1999年 ", PyVal.int 9,
        PyVal.int 0⟩]⟩

/-- Sample configuration with `max_items = 3`. -/
def sample_cfg3 : Config := ⟨some "10:00", some 3⟩

/-- Sample already-built media item used by the concrete witnesses. -/
def sample_item : MediaItem :=
  ⟨PyVal.str "哪吒2", "2025", PyVal.num "8.5", PyVal.str "34780991", "movie"⟩

/-! Helper lemmas shared by several claim theorems. -/

theorem mem_of_mem_dropWhile {α : Type} (p : α → Bool) :
    ∀ (l : List α) (a : α), a ∈ l.dropWhile p → a ∈ l := by
  intro l
  induction l with
  | nil => intro a h; simp at h
  | cons x xs ih =>
      intro a h
      rw [List.dropWhile_cons] at h
      split at h
      · exact List.mem_cons_of_mem x (ih a h)
      · exact h

theorem mem_of_mem_pyStrip {c : Char} {s : String}
    (h : c ∈ (pyStrip s).data) : c ∈ s.data := by
  have h1 : c ∈ (((s.data.dropWhile isPySpace).reverse.dropWhile
      isPySpace).reverse) := h
  rw [List.mem_reverse] at h1
  have h2 := mem_of_mem_dropWhile _ _ _ h1
  rw [List.mem_reverse] at h2
  exact mem_of_mem_dropWhile _ _ _ h2

theorem item_line_eq_spec (i : Nat) (item : MediaItem) :
    item_line i item = spec_item_line i item := by
  have hlink : (")\n豆瓣: https://movie.douban.com/subject/" : String)
      = ")" ++ "\n豆瓣: https://movie.douban.com/subject/" := rfl
  have hstar : (") ⭐" : String) = ")" ++ " ⭐" := rfl
  unfold item_line spec_item_line
  cases hr : pyTruthy item.rating <;> cases hd : pyTruthy item.douban_id
  · simp [hr, hd, String.append_assoc, String.append_empty]
  · simp [hr, hd, String.append_assoc, String.append_empty]
    rw [hlink]
    simp only [String.append_assoc]
  · simp [hr, hd, String.append_assoc, String.append_empty]
    rw [hstar]
    simp only [String.append_assoc]
  · simp [hr, hd, String.append_assoc, String.append_empty]
    rw [hstar]
    simp only [String.append_assoc]

theorem enumFrom_item_lines (l : List MediaItem) :
    ∀ i, (l.enumFrom i).map (fun p => item_line p.1 p.2) =
      List.zipWith spec_item_line (List.range' i l.length) l := by
  induction l with
  | nil => intro i; rfl
  | cons x xs ih =>
      intro i
      simp only [List.enumFrom, List.map, List.length_cons, List.range'_succ,
        List.zipWith]
      rw [item_line_eq_spec, ih (i + 1)]

/-! Claim theorems. -/

/-- C1: for every configuration and every outcome of the two category fetches
and of the notification send, `push_hot_media` never raises to its caller:
the outermost `try/except` converts every exception raised inside the routine
(the second conjunct shows an input on which the unprotected body does raise)
into a logged error. -/
theorem push_hot_media_never_raises :
    (∀ cfg date_str movieOut tvOut n,
      (push_hot_media cfg date_str movieOut tvOut n).isOk = true) ∧
    (∃ cfg date_str movieOut tvOut n e,
      push_hot_media_try cfg date_str movieOut tvOut n = Except.error e) := by
  constructor
  · intro cfg d m t n
    unfold push_hot_media
    cases push_hot_media_try cfg d m t n <;> rfl
  · exact ⟨sample_cfg3, "2025-01-01", FetchOutcome.ok sample_resp,
      FetchOutcome.fail, NotifyOutcome.fail, "send_message failed", rfl⟩

/-- C2: `get_douban_hot` is total and never raises: any failure of the
request or decode yields `[]`, a response missing the array field yields
`[]`, and a category other than `"movie"` or `"tv"` yields `[]` without
issuing any HTTP request (second component `false`), whatever the outcome
parameter. -/
theorem get_douban_hot_never_raises :
    (∀ media_type count,
      (get_douban_hot media_type count FetchOutcome.fail).1 = []) ∧
    (∀ media_type count,
      (get_douban_hot media_type count
        (FetchOutcome.ok ⟨Option.none⟩)).1 = []) ∧
    (∀ media_type count outcome, media_type ≠ "movie" → media_type ≠ "tv" →
      get_douban_hot media_type count outcome = ⟨[], false⟩) := by
  refine ⟨?_, ?_, ?_⟩
  · intro mt c
    unfold get_douban_hot
    split <;> rfl
  · intro mt c
    unfold get_douban_hot
    split <;> simp
  · intro mt c o h1 h2
    unfold get_douban_hot
    have hb : (mt = "movie" || mt = "tv") = false := by simp [h1, h2]
    simp [hb]

theorem get_douban_hot_never_raises_witness :
    get_douban_hot "book" 5 (FetchOutcome.ok sample_resp) = ⟨[], false⟩ :=
  get_douban_hot_never_raises.2.2 "book" 5 (FetchOutcome.ok sample_resp)
    (by decide) (by decide)

/-- C3: when both category fetches return empty lists the push routine logs
the warning and returns before `send_notification`: for every date and every
notification outcome the run ends in `PushOutcome.noItems` (so the result
does not even depend on the notification outcome, no send call was made). -/
theorem push_no_items_skips_send (cfg : Config) (movieOut tvOut : FetchOutcome)
    (h1 : (get_douban_hot "movie" (cfg.max_items.getD 5) movieOut).1 = [])
    (h2 : (get_douban_hot "tv" (cfg.max_items.getD 5) tvOut).1 = []) :
    ∀ date_str n, push_hot_media cfg date_str movieOut tvOut n =
      Except.ok PushOutcome.noItems := by
  intro d n
  unfold push_hot_media push_hot_media_try
  simp [h1, h2]

theorem push_no_items_skips_send_witness :
    push_hot_media ⟨some "10:00", some 5⟩ "2025-01-01" FetchOutcome.fail
      FetchOutcome.fail NotifyOutcome.ok = Except.ok PushOutcome.noItems :=
  push_no_items_skips_send ⟨some "10:00", some 5⟩ FetchOutcome.fail
    FetchOutcome.fail rfl rfl "2025-01-01" NotifyOutcome.ok

/-- C8: `unload` never raises to its caller, whatever the outcome of the
`remove_job` call; after a `load`, a first `unload` whose removal succeeds
and a second `unload` whose removal fails (the job is already removed — note
the code never resets `self.schedule_job`) both return normally, the second
only logging the swallowed error. -/
theorem unload_swallows_remove_failure :
    (∀ st rOut, ∃ r, unload st rOut = Except.ok r) ∧
    (∀ cfg addOut st0,
      unload (load cfg addOut st0).state RemoveJobOutcome.ok =
        Except.ok ⟨some "HotMediaDaily_push_job", false⟩ ∧
      unload (load cfg addOut st0).state RemoveJobOutcome.fail =
        Except.ok ⟨some "HotMediaDaily_push_job", true⟩) := by
  constructor
  · intro st rOut
    unfold unload
    cases st.schedule_job with
    | none => exact ⟨_, rfl⟩
    | some job => cases rOut <;> exact ⟨_, rfl⟩
  · intro cfg addOut st0
    cases addOut <;> exact ⟨rfl, rfl⟩

/-- C9: after `load` returns, `self.schedule_job` is always set — it is
assigned before `add_job` is attempted — even when the registration itself
failed; consequently a subsequent `unload` does issue a `remove_job` call for
that job id, swallowing the resulting error. -/
theorem schedule_job_set_before_registration :
    (∀ cfg addOut st, ((load cfg addOut st).state.schedule_job).isSome = true) ∧
    (∀ cfg st,
      unload (load cfg AddJobOutcome.fail st).state RemoveJobOutcome.fail =
        Except.ok ⟨some "HotMediaDaily_push_job", true⟩) := by
  constructor
  · intro cfg addOut st; cases addOut <;> rfl
  · intro cfg st; rfl

/-- C10: `parse_year` is total over arbitrary dynamically typed inputs: it
always returns a string, a falsy input gives `""`, and a truthy non-string
input (for instance the integer 2024) also gives `""` because the
`AttributeError` is swallowed by the bare `except`. -/
theorem parse_year_total :
    (∀ v, pyTruthy v = false → parse_year v = "") ∧
    (∀ v, (∀ s, v ≠ PyVal.str s) → parse_year v = "") ∧
    parse_year (PyVal.int 2024) = "" := by
  refine ⟨?_, ?_, by decide⟩
  · intro v h
    unfold parse_year
    simp [h]
  · intro v h
    unfold parse_year
    cases v with
    | str s => exact absurd rfl (h s)
    | none => rfl
    | int n => split <;> rfl
    | num lit => split <;> rfl

theorem parse_year_total_witness :
    parse_year PyVal.none = "" ∧ parse_year (PyVal.int 7) = "" :=
  ⟨parse_year_total.1 PyVal.none rfl,
    parse_year_total.2.1 (PyVal.int 7) (fun _s h => PyVal.noConfusion h)⟩

/-- C4: the list handed to `send_notification` by the push routine is
exactly the movie-category fetch result concatenated with the tv-category
fetch result, in that order; in particular with `max_items = 3` and each
category fetch returning 3 items the combined list has exactly 6 items,
movies preceding series. -/
theorem push_sends_movies_then_tvs :
    (∀ cfg date_str movieOut tvOut,
      (get_douban_hot "movie" (cfg.max_items.getD 5) movieOut).1 ++
          (get_douban_hot "tv" (cfg.max_items.getD 5) tvOut).1 ≠ [] →
      sent_items (push_hot_media cfg date_str movieOut tvOut NotifyOutcome.ok) =
        some ((get_douban_hot "movie" (cfg.max_items.getD 5) movieOut).1 ++
          (get_douban_hot "tv" (cfg.max_items.getD 5) tvOut).1)) ∧
    (sent_items (push_hot_media sample_cfg3 "2025-01-01"
        (FetchOutcome.ok sample_resp4) (FetchOutcome.ok sample_resp4)
        NotifyOutcome.ok)).map
      (fun l => (l.length, l.map MediaItem.media_type)) =
      some (6, ["movie", "movie", "movie", "tv", "tv", "tv"]) := by
  constructor
  · intro cfg d m t hne
    unfold push_hot_media push_hot_media_try
    have hemp : ((get_douban_hot "movie" (cfg.max_items.getD 5) m).1 ++
        (get_douban_hot "tv" (cfg.max_items.getD 5) t).1).isEmpty = false :=
      List.isEmpty_eq_false.mpr hne
    simp [hemp, send_notification, sent_items]
  · rfl

theorem push_sends_movies_then_tvs_witness :
    sent_items (push_hot_media sample_cfg3 "2025-01-01"
        (FetchOutcome.ok sample_resp4) FetchOutcome.fail NotifyOutcome.ok) =
      some ((get_douban_hot "movie" (sample_cfg3.max_items.getD 5)
          (FetchOutcome.ok sample_resp4)).1 ++
        (get_douban_hot "tv" (sample_cfg3.max_items.getD 5)
          FetchOutcome.fail).1) :=
  push_sends_movies_then_tvs.1 sample_cfg3 "2025-01-01"
    (FetchOutcome.ok sample_resp4) FetchOutcome.fail (by decide)

/-- C5: the job registered by `load` carries the hour and minute obtained by
parsing `push_time` as two colon-separated integers (`parse_push_time`
agrees with that reading everywhere, defaulting to `(10, 0)` whenever it
fails); `"9:05"` gives hour 9 minute 5 and the unparseable `"abc"` gives
hour 10 minute 0. -/
theorem load_parses_push_time :
    (∀ s : String, parse_push_time s = (two_colon_ints s).getD ⟨10, 0⟩) ∧
    (∀ cfg addOut st, (load cfg addOut st).state.schedule_job =
      some ⟨"HotMediaDaily_push_job", "cron",
        (parse_push_time (cfg.push_time.getD "10:00")).1,
        (parse_push_time (cfg.push_time.getD "10:00")).2⟩) ∧
    parse_push_time "9:05" = ⟨9, 5⟩ ∧ parse_push_time "abc" = ⟨10, 0⟩ := by
  refine ⟨?_, ?_, by decide, by decide⟩
  · intro s
    unfold parse_push_time two_colon_ints
    rcases h : pySplitChar ':' s with _ | ⟨a, _ | ⟨b, _ | ⟨c, t⟩⟩⟩
    · rfl
    · cases hfa : pyIntOfString a <;> simp [hfa]
    · cases hfa : pyIntOfString a <;> cases hfb : pyIntOfString b <;>
        simp [hfa, hfb]
    · cases hfa : pyIntOfString a <;> cases hfb : pyIntOfString b <;>
        simp [hfa, hfb]
  · intro cfg addOut st
    cases addOut <;> rfl

/-- C6: for every non-empty item list, the message built by
`send_notification` is the dated header, the per-category counts, and then
one `spec_item_line` per item numbered sequentially from 1 (each line:
localized category label, title, year, star-prefixed rating when the rating
is present, link line when an identifier is present); the enumeration
indices are exactly 1, 2, ..., n. -/
theorem message_matches_spec_format (date_str : String)
    (items : List MediaItem) (_h : items ≠ []) :
    build_message date_str items = spec_message date_str items ∧
    (items.enumFrom 1).map Prod.fst = List.range' 1 items.length := by
  refine ⟨?_, List.enumFrom_map_fst 1 items⟩
  unfold build_message spec_message
  rw [List.countP_eq_length_filter, List.countP_eq_length_filter,
    enumFrom_item_lines items 1]

theorem message_matches_spec_format_witness :
    build_message "2025-01-01" [sample_item] =
      spec_message "2025-01-01" [sample_item] ∧
    ([sample_item].enumFrom 1).map Prod.fst =
      List.range' 1 [sample_item].length :=
  message_matches_spec_format "2025-01-01" [sample_item] (by decide)

/-- C7, counterexample: the year field is not in general the raw value with
a `"年"` suffix removed — `parse_year` removes every occurrence of `"年"`,
so on the raw value `"年2024"` (where `"年"` is not a suffix) the code and
the claimed transformation disagree. -/
theorem parse_year_not_suffix_removal :
    (mk_media_item "movie"
        ⟨some (PyVal.str "某片"), PyVal.str "年2024", PyVal.none,
          PyVal.none⟩).year ≠ spec_parse_year "年2024" := by
  decide

/-- C7, amended: a fetched raw year value `"2024年"` yields the year field
`"2024"`; in general the year field of a fetched item is the raw string with
every occurrence of `"年"` removed (not only a suffix) and surrounding
whitespace stripped, and no `"年"` ever survives in it. -/
theorem parse_year_removes_all_occurrences :
    parse_year (PyVal.str "2024年") = "2024" ∧
    (∀ media_type item,
      (mk_media_item media_type item).year = parse_year item.year) ∧
    (∀ s : String, s ≠ "" →
      parse_year (PyVal.str s) =
        pyStrip (String.mk (s.data.filter (fun c => c != '年')))) ∧
    (∀ s : String, '年' ∉ (parse_year (PyVal.str s)).data) := by
  refine ⟨by decide, fun media_type item => rfl, ?_, ?_⟩
  · intro s h
    have hne : (!s.isEmpty) = true := by
      cases he : s.isEmpty
      · rfl
      · exact absurd ((String.isEmpty_iff s).mp he) h
    unfold parse_year
    simp [pyTruthy, hne]
  · intro s
    unfold parse_year
    by_cases hb : pyTruthy (PyVal.str s) = false
    · simp [hb]
    · simp only [hb, if_false, Bool.false_eq_true]
      intro hmem
      have h1 : '年' ∈ (String.mk (s.data.filter (fun c => c != '年'))).data :=
        mem_of_mem_pyStrip hmem
      have h2 : '年' ∈ s.data.filter (fun c => c != '年') := h1
      have h3 := (List.mem_filter.mp h2).2
      simp at h3

theorem parse_year_removes_all_occurrences_witness :
    parse_year (PyVal.str " 19年99年 ") =
      pyStrip (String.mk ((" 19年99年 ".data).filter (fun c => c != '年'))) :=
  parse_year_removes_all_occurrences.2.2.1 " 19年99年 " (by decide)

end HotMediaDaily
